import Mathlib

/-!
Verification of the uthreads user-level thread library
(repository OperatingSystems, files src/ex2/uthreads.cpp and src/ex2/thread.h).

The library state is embedded shallowly: the thread registry is an
association list from thread id to a record of the per-thread fields of
class thread (thread.h), the ready queue and the sleep queue are lists,
and each public entry point of uthreads.cpp becomes a pure function on
the state returning the C return value, the successor state and the
diagnostic message (if any).  Signal masking, stack memory and machine
contexts have no observable effect on the values the claims talk about
and are not represented.

The helper classes thread_manager, scheduler, SleepingThreadsList,
virtual_timer and real_timer are declared but their sources are not in
the snapshot; their operations are modelled from the specification
(sections 4.B, 4.C, 4.D, 4.F, 4.G) and are marked as such below.
-/

namespace UThreads

/-- Modelled from the spec: compile-time capacity constant MAX_THREAD_NUM
(the header uthreads.h defining it is not in the snapshot). -/
def MAX_THREAD_NUM : Nat := 100

/-- uthreads.cpp line 13: conversion constant, seconds to nanoseconds. -/
def CONVERT_CONST_SEC_TO_NSEC : Int := 1000000000

/-- uthreads.cpp line 14: conversion constant (multiplying a microsecond
count by it yields nanoseconds, despite the MSEC name). -/
def CONVERT_CONST_MSEC_TO_NSEC : Int := 1000

/-- uthreads.cpp line 19: the prefix of every library-level error message. -/
def libErrorSyntax : String := "thread library error: "

/-- A wall-clock instant, mirroring struct timeval (seconds, microseconds). -/
structure Timeval where
  sec : Int
  usec : Int
deriving Repr, DecidableEq

/-- The per-thread bookkeeping fields of class thread (thread.h lines 20-23):
the quantum count _quants, the _isBlocked flag and the _isSleeping flag.
The stack buffer and the saved sigjmp context are not observable by the
claims and are omitted. -/
structure Thread where
  quants : Nat
  isBlocked : Bool
  isSleeping : Bool
deriving Repr, DecidableEq

/-- The process-wide state of the library: the registry of live threads,
the ready queue of the scheduler (head = running thread in steady state),
the sleep queue sorted by wake-up time, the running thread id, the global
quantum counter totalQuants (uthreads.cpp line 30), and the delay the real
timer was last armed with (tracked so that the timer claims are statable). -/
structure LibState where
  threads : List (Nat × Thread)
  readyQueue : List Nat
  sleepQueue : List (Nat × Timeval)
  running : Nat
  totalQuants : Nat
  rTimerArm : Option Int
deriving Repr, DecidableEq

/-- Registry lookup by thread id (first matching entry). -/
def lookupThread : List (Nat × Thread) → Nat → Option Thread
  | [], _ => none
  | (i, t) :: rest, tid => if i = tid then some t else lookupThread rest tid

/-- Update the record of the given thread id in place (first matching entry). -/
def updateThread (f : Thread → Thread) : List (Nat × Thread) → Nat → List (Nat × Thread)
  | [], _ => []
  | (i, t) :: rest, tid =>
      if i = tid then (i, f t) :: rest else (i, t) :: updateThread f rest tid

/-- Remove every entry of the given thread id from the registry. -/
def removeThread : List (Nat × Thread) → Nat → List (Nat × Thread)
  | [], _ => []
  | (i, t) :: rest, tid =>
      if i = tid then removeThread rest tid else (i, t) :: removeThread rest tid

/-- Modelled from the spec (4.B): thread_manager::blockThread sets the blocked
flag; returns -1 when no record exists, blocking an already blocked thread is
a no-op. -/
def blockThread (ts : List (Nat × Thread)) (tid : Nat) : Int × List (Nat × Thread) :=
  match lookupThread ts tid with
  | none => (-1, ts)
  | some _ => (0, updateThread (fun t => { t with isBlocked := true }) ts tid)

/-- Modelled from the spec (4.B): thread_manager::unBlockThread clears the
blocked flag; returns -1 when no record exists, unblocking a non-blocked
thread is a no-op. -/
def unBlockThread (ts : List (Nat × Thread)) (tid : Nat) : Int × List (Nat × Thread) :=
  match lookupThread ts tid with
  | none => (-1, ts)
  | some _ => (0, updateThread (fun t => { t with isBlocked := false }) ts tid)

/-- Modelled from the spec (4.B): thread_manager::putThreadToSleep sets the
sleeping flag. -/
def putThreadToSleep (ts : List (Nat × Thread)) (tid : Nat) : List (Nat × Thread) :=
  updateThread (fun t => { t with isSleeping := true }) ts tid

/-- Modelled from the spec (4.B): thread_manager::wakeThread clears the
sleeping flag and reports whether the thread still exists (0 = exists,
-1 = no record); waking a non-sleeping thread is a no-op that still
returns the exists signal. -/
def wakeThread (ts : List (Nat × Thread)) (tid : Nat) : Int × List (Nat × Thread) :=
  match lookupThread ts tid with
  | none => (-1, ts)
  | some _ => (0, updateThread (fun t => { t with isSleeping := false }) ts tid)

/-- Modelled from the spec (4.B): thread_manager::isThreadBlocked. -/
def isThreadBlocked (ts : List (Nat × Thread)) (tid : Nat) : Bool :=
  match lookupThread ts tid with
  | some t => t.isBlocked
  | none => false

/-- Modelled from the spec (4.B): thread_manager::isThreadAsleep. -/
def isThreadAsleep (ts : List (Nat × Thread)) (tid : Nat) : Bool :=
  match lookupThread ts tid with
  | some t => t.isSleeping
  | none => false

/-- Modelled from the spec (4.B): thread_manager::getThreadQuants returns the
quantum count of the thread, -1 when no record exists. -/
def getThreadQuants (ts : List (Nat × Thread)) (tid : Nat) : Int :=
  match lookupThread ts tid with
  | some t => Int.ofNat t.quants
  | none => -1

/-- Modelled from the spec (4.B): thread_manager::killThread removes the
record, -1 when no record exists. -/
def killThread (ts : List (Nat × Thread)) (tid : Nat) : Int × List (Nat × Thread) :=
  match lookupThread ts tid with
  | none => (-1, ts)
  | some _ => (0, removeThread ts tid)

/-- Modelled from the spec (4.B): id allocation picks the smallest unused id
in the interval from 1 to MAX_THREAD_NUM - 1; none when the capacity is
exhausted. -/
def freshTid (ts : List (Nat × Thread)) : Option Nat :=
  ((List.range MAX_THREAD_NUM).drop 1).find? (fun i => (lookupThread ts i).isNone)

/-- A freshly spawned worker: the spec (section 3) has the quantum count
start at 0, becoming 1 the first time the thread runs. -/
def newWorkerThread : Thread := { quants := 0, isBlocked := false, isSleeping := false }

/-- Modelled from the spec (4.C): scheduler::addThread appends to the tail of
the ready queue; a thread is present at most once. -/
def addThread (q : List Nat) (tid : Nat) : List Nat :=
  if tid ∈ q then q else q ++ [tid]

/-- Modelled from the spec (4.G): the rotation of whosNextTimeout - the head
moves to the tail (a singleton queue is unchanged). -/
def rotate (q : List Nat) : List Nat :=
  match q with
  | [] => []
  | x :: xs => xs ++ [x]

/-- Modelled from the spec (4.G): thread_manager::switchContext marks the
target thread running and increments its quantum count.  The saved machine
contexts and the unmasking step have no observable effect on the embedded
state. -/
def switchContext (s : LibState) (toTid : Nat) : LibState :=
  { s with running := toTid,
           threads := updateThread (fun t => { t with quants := t.quants + 1 }) s.threads toTid }

/-- The state right after a successful uthread_init (uthreads.cpp lines
160-205): only the synthetic main thread 0 exists with quantum count 1
(spec section 3, lifecycles), it is running and alone in the ready queue,
no sleepers, and totalQuants was incremented from 0 to 1 (line 202). -/
def initState : LibState :=
  { threads := [(0, { quants := 1, isBlocked := false, isSleeping := false })],
    readyQueue := [0],
    sleepQueue := [],
    running := 0,
    totalQuants := 1,
    rTimerArm := none }

/-- uthread_init (uthreads.cpp lines 160-208): positive quantum yields the
initial state; otherwise -1 with a library error message and no state is
created.  (The source message text carries an apostrophe-free rendering
here.) -/
def uthread_init (quantum_usecs : Int) : Int × Option LibState × Option String :=
  if 0 < quantum_usecs then (0, some initState, none)
  else (-1, none, some (libErrorSyntax ++ "quantum_usec should be non-negative."))

/-- uthread_spawn (uthreads.cpp lines 220-236): allocate the smallest unused
id, add the worker to the registry and append it to the ready queue; -1 with
a message at capacity. -/
def uthread_spawn (s : LibState) : Int × LibState × Option String :=
  match freshTid s.threads with
  | none => (-1, s, some (libErrorSyntax ++ "Number of threads > MAX_THREAD_NUMBER."))
  | some tid =>
      (Int.ofNat tid,
       { s with threads := s.threads ++ [(tid, newWorkerThread)],
                readyQueue := addThread s.readyQueue tid },
       none)

/-- The outcome of uthread_terminate: either a normal return carrying the
return value, the successor state and the optional message, or a process
exit with the given code (terminate of the main thread never returns). -/
inductive TermResult where
  | ret (v : Int) (s : LibState) (msg : Option String)
  | exited (code : Nat)
deriving Repr, DecidableEq

/-- uthread_terminate (uthreads.cpp lines 250-278): for tid different from 0,
kill the record if it exists, remove the id from the ready queue
(whosNextTermination, spec 4.G), and context-switch - incrementing
totalQuants - exactly when the new head differs from the running thread;
unknown tid yields -1 with a message.  tid = 0 releases the library and
exits the process with code 0. -/
def uthread_terminate (s : LibState) (tid : Nat) : TermResult :=
  if tid ≠ 0 then
    match lookupThread s.threads tid with
    | some _ =>
        let ts := removeThread s.threads tid
        let q := s.readyQueue.erase tid
        let next := q.headD 0
        if next ≠ s.running then
          TermResult.ret 0
            (switchContext
              { s with threads := ts, readyQueue := q, totalQuants := s.totalQuants + 1 } next)
            none
        else
          TermResult.ret 0 { s with threads := ts, readyQueue := q } none
    | none => TermResult.ret (-1) s (some (libErrorSyntax ++ "Thread does not exist."))
  else TermResult.exited 0

/-- uthread_block (uthreads.cpp lines 290-317): blocking the main thread is
refused; blocking an existing thread sets its flag, removes it from the
ready queue (whosNextBlock, spec 4.G) and context-switches - incrementing
totalQuants - exactly when the new head differs from the running thread;
unknown tid yields -1 with a message. -/
def uthread_block (s : LibState) (tid : Nat) : Int × LibState × Option String :=
  if tid ≠ 0 then
    match lookupThread s.threads tid with
    | some _ =>
        let ts := updateThread (fun t => { t with isBlocked := true }) s.threads tid
        let q := s.readyQueue.erase tid
        let next := q.headD 0
        if next ≠ s.running then
          (0,
           switchContext
             { s with threads := ts, readyQueue := q, totalQuants := s.totalQuants + 1 } next,
           none)
        else (0, { s with threads := ts, readyQueue := q }, none)
    | none => (-1, s, some (libErrorSyntax ++ "Thread does not exist."))
  else (-1, s, some (libErrorSyntax ++ "Blocking the main thread is forbidden."))

/-- uthread_resume (uthreads.cpp lines 327-341): clear the blocked flag of an
existing thread and append it to the ready queue unless it is still asleep;
unknown tid yields -1 with a message. -/
def uthread_resume (s : LibState) (tid : Nat) : Int × LibState × Option String :=
  match lookupThread s.threads tid with
  | some _ =>
      let ts := updateThread (fun t => { t with isBlocked := false }) s.threads tid
      if isThreadAsleep ts tid then (0, { s with threads := ts }, none)
      else (0, { s with threads := ts, readyQueue := addThread s.readyQueue tid }, none)
  | none => (-1, s, some (libErrorSyntax ++ "Thread does not exist."))

/-- Strict order on wall-clock instants (timercmp with the less-than
operator). -/
def timevalLT (a b : Timeval) : Bool :=
  a.sec < b.sec || (a.sec == b.sec && a.usec < b.usec)

/-- Modelled from the spec (4.D): SleepingThreadsList::add inserts into the
sorted position by wake time, after entries with an equal key (stable). -/
def sleepInsert (tid : Nat) (tv : Timeval) : List (Nat × Timeval) → List (Nat × Timeval)
  | [] => [(tid, tv)]
  | (i, w) :: rest =>
      if timevalLT tv w then (tid, tv) :: (i, w) :: rest
      else (i, w) :: sleepInsert tid tv rest

/-- calcWakUpTimeval (uthreads.cpp lines 39-47): now plus the requested
microseconds, normalised the way timeradd normalises (usec kept below one
million). -/
def calcWakUpTimeval (now : Timeval) (usecs_to_sleep : Nat) : Timeval :=
  let s := now.sec + Int.ofNat (usecs_to_sleep / 1000000)
  let u := now.usec + Int.ofNat (usecs_to_sleep % 1000000)
  if 1000000 ≤ u then { sec := s + 1, usec := u - 1000000 } else { sec := s, usec := u }

/-- uthread_sleep (uthreads.cpp lines 351-391): refused from the main thread;
otherwise insert the running thread into the sleep queue at its wake time,
restart the real timer with usec when the queue was empty or the head
changed, set the sleeping flag, remove the thread from the ready queue
(whosNextSleep, spec 4.G) and context-switch, incrementing totalQuants. -/
def uthread_sleep (s : LibState) (usec : Nat) (now : Timeval) : Int × LibState × Option String :=
  if s.running ≠ 0 then
    let tv := calcWakUpTimeval now usec
    let sq := sleepInsert s.running tv s.sleepQueue
    let arm : Option Int :=
      match s.sleepQueue.head? with
      | none => some (Int.ofNat usec)
      | some oldHead =>
          match sq.head? with
          | some newHead =>
              if oldHead.1 ≠ newHead.1 then some (Int.ofNat usec) else s.rTimerArm
          | none => s.rTimerArm
    let ts := putThreadToSleep s.threads s.running
    let q := s.readyQueue.erase s.running
    let next := q.headD 0
    (0,
     switchContext
       { s with threads := ts, readyQueue := q, sleepQueue := sq,
                rTimerArm := arm, totalQuants := s.totalQuants + 1 } next,
     none)
  else (-1, s, some (libErrorSyntax ++ "The main thread cannot sleep."))

/-- handleQuantumTimeout (uthreads.cpp lines 90-106): restart the virtual
timer, increment totalQuants, rotate the ready queue (whosNextTimeout) and
context-switch to the new head. -/
def handleQuantumTimeout (s : LibState) : LibState :=
  let q := rotate s.readyQueue
  let next := q.headD s.running
  switchContext { s with readyQueue := q, totalQuants := s.totalQuants + 1 } next

/-- The delay until the next wake-up as handleSleepTimeout computes it
(uthreads.cpp lines 138-139): seconds difference times
CONVERT_CONST_SEC_TO_NSEC plus microseconds difference times
CONVERT_CONST_MSEC_TO_NSEC - a value in nanoseconds. -/
def sourceSleepDelta (wake now : Timeval) : Int :=
  (wake.sec - now.sec) * CONVERT_CONST_SEC_TO_NSEC +
    (wake.usec - now.usec) * CONVERT_CONST_MSEC_TO_NSEC

/-- The delay until the next wake-up as the specification words it: the
difference head.wake_at minus now expressed in microseconds.  Stated for
comparison with sourceSleepDelta. -/
def specMicrosecondDelta (wake now : Timeval) : Int :=
  (wake.sec - now.sec) * 1000000 + (wake.usec - now.usec)

/-- The loop body of handleSleepTimeout (uthreads.cpp lines 116-147) acting
on the sleep queue, the registry, the ready queue and the real timer arm
value: pop the head, clear its sleeping flag if the thread still exists and
append it to the ready queue when it is not blocked; then look at the new
head, return when there is none, loop when its delay is non-positive, and
otherwise arm the real timer with the computed delay. -/
def wakeOne (ts : List (Nat × Thread)) (rq : List Nat) (tid : Nat) :
    List (Nat × Thread) × List Nat :=
  match lookupThread ts tid with
  | some t =>
      let ts2 := updateThread (fun u => { u with isSleeping := false }) ts tid
      if t.isBlocked then (ts2, rq) else (ts2, addThread rq tid)
  | none => (ts, rq)

def wakeAux (now : Timeval) :
    List (Nat × Timeval) → List (Nat × Thread) → List Nat →
      List (Nat × Timeval) × List (Nat × Thread) × List Nat × Option Int
  | [], ts, rq => ([], ts, rq, none)
  | (tid, _) :: rest, ts, rq =>
      let step := wakeOne ts rq tid
      match rest with
      | [] => ([], step.1, step.2, none)
      | (_, w) :: _ =>
          if sourceSleepDelta w now ≤ 0 then wakeAux now rest step.1 step.2
          else (rest, step.1, step.2, some (sourceSleepDelta w now))

/-- handleSleepTimeout (uthreads.cpp lines 112-149).  The C code dereferences
the head unconditionally; the handler only fires while the queue is
non-empty, and an empty queue is embedded as a no-op.  The running thread,
the quantum counters and the registry membership are untouched; only
sleeping flags, the ready queue, the sleep queue and the real timer change. -/
def handleSleepTimeout (s : LibState) (now : Timeval) : LibState :=
  let r := wakeAux now s.sleepQueue s.threads s.readyQueue
  { s with sleepQueue := r.1, threads := r.2.1, readyQueue := r.2.2.1,
           rTimerArm := match r.2.2.2 with | some d => some d | none => s.rTimerArm }

/-- uthread_get_tid (uthreads.cpp lines 397-404): the running thread id; the
state is returned unchanged (masking and unmasking only). -/
def uthread_get_tid (s : LibState) : Int × LibState :=
  (Int.ofNat s.running, s)

/-- uthread_get_total_quantums (uthreads.cpp lines 415-418): the global
quantum counter; the state is untouched. -/
def uthread_get_total_quantums (s : LibState) : Int × LibState :=
  (Int.ofNat s.totalQuants, s)

/-- uthread_get_quantums (uthreads.cpp lines 431-443): the quantum count of
an existing thread, -1 with a message for an unknown id; the state is
returned unchanged. -/
def uthread_get_quantums (s : LibState) (tid : Nat) : Int × LibState × Option String :=
  match lookupThread s.threads tid with
  | some t => (Int.ofNat t.quants, s, none)
  | none => (-1, s, some (libErrorSyntax ++ "Thread does not exist."))

/-- One observable transition of the library: a signal handler firing or a
public entry point invoked by the application (terminate only in its
returning case - a process exit ends the trace). -/
inductive LibStep : LibState → LibState → Prop where
  | quantum (s : LibState) : LibStep s (handleQuantumTimeout s)
  | wake (s : LibState) (now : Timeval) : LibStep s (handleSleepTimeout s now)
  | spawn (s : LibState) : LibStep s (uthread_spawn s).2.1
  | block (s : LibState) (tid : Nat) : LibStep s (uthread_block s tid).2.1
  | resume (s : LibState) (tid : Nat) : LibStep s (uthread_resume s tid).2.1
  | sleep (s : LibState) (usec : Nat) (now : Timeval) :
      LibStep s (uthread_sleep s usec now).2.1
  | terminate (s : LibState) (tid : Nat) (v : Int) (s' : LibState) (m : Option String) :
      uthread_terminate s tid = TermResult.ret v s' m → LibStep s s'
  | getTid (s : LibState) : LibStep s (uthread_get_tid s).2
  | getTotal (s : LibState) : LibStep s (uthread_get_total_quantums s).2
  | getQuants (s : LibState) (tid : Nat) : LibStep s (uthread_get_quantums s tid).2.1

/-! ### Registry lemmas -/

theorem lookupThread_updateThread_self (f : Thread → Thread) (ts : List (Nat × Thread))
    (tid : Nat) : lookupThread (updateThread f ts tid) tid = Option.map f (lookupThread ts tid) := by
  induction ts with
  | nil => simp [lookupThread, updateThread]
  | cons p rest ih =>
      obtain ⟨i, t⟩ := p
      by_cases h : i = tid
      · simp [lookupThread, updateThread, h]
      · simp [lookupThread, updateThread, h, ih]

theorem lookupThread_updateThread_ne (f : Thread → Thread) (ts : List (Nat × Thread))
    (k tid : Nat) (hk : k ≠ tid) :
    lookupThread (updateThread f ts k) tid = lookupThread ts tid := by
  induction ts with
  | nil => simp [lookupThread, updateThread]
  | cons p rest ih =>
      obtain ⟨i, t⟩ := p
      by_cases h : i = k
      · subst h
        simp [lookupThread, updateThread, hk]
      · by_cases h2 : i = tid
        · subst h2
          simp [lookupThread, updateThread, Ne.symm hk]
        · simp [lookupThread, updateThread, h, h2, ih]

theorem updateThread_eq_of_fix (f : Thread → Thread) (ts : List (Nat × Thread)) (tid : Nat)
    (t : Thread) (hl : lookupThread ts tid = some t) (hf : f t = t) :
    updateThread f ts tid = ts := by
  induction ts with
  | nil => simp [updateThread]
  | cons p rest ih =>
      obtain ⟨i, u⟩ := p
      by_cases h : i = tid
      · subst h
        simp [lookupThread] at hl
        subst hl
        simp [updateThread, hf]
      · simp [lookupThread, h] at hl
        simp [updateThread, h, ih hl]

theorem lookupThread_removeThread_self (ts : List (Nat × Thread)) (tid : Nat) :
    lookupThread (removeThread ts tid) tid = none := by
  induction ts with
  | nil => simp [lookupThread, removeThread]
  | cons p rest ih =>
      obtain ⟨i, t⟩ := p
      by_cases h : i = tid
      · simp [removeThread, h, ih]
      · simp [removeThread, lookupThread, h, ih]

theorem lookupThread_none_updateThread (f : Thread → Thread) (ts : List (Nat × Thread))
    (k tid : Nat) (h : lookupThread ts tid = none) :
    lookupThread (updateThread f ts k) tid = none := by
  by_cases hk : k = tid
  · subst hk
    rw [lookupThread_updateThread_self, h]
    rfl
  · rw [lookupThread_updateThread_ne _ _ _ _ hk, h]

theorem getThreadQuants_updateThread (f : Thread → Thread) (ts : List (Nat × Thread))
    (k tid : Nat) (hf : ∀ t, (f t).quants = t.quants) :
    getThreadQuants (updateThread f ts k) tid = getThreadQuants ts tid := by
  by_cases hk : k = tid
  · subst hk
    unfold getThreadQuants
    rw [lookupThread_updateThread_self]
    cases lookupThread ts k with
    | none => rfl
    | some t => simp [hf]
  · unfold getThreadQuants
    rw [lookupThread_updateThread_ne _ _ _ _ hk]

/-! ### Facts about the wake handler loop -/

theorem wakeAux_nil (now : Timeval) (ts : List (Nat × Thread)) (rq : List Nat) :
    wakeAux now [] ts rq = ([], ts, rq, none) := rfl

theorem wakeAux_singleton (now : Timeval) (i : Nat) (w : Timeval)
    (ts : List (Nat × Thread)) (rq : List Nat) :
    wakeAux now [(i, w)] ts rq = ([], (wakeOne ts rq i).1, (wakeOne ts rq i).2, none) := rfl

theorem wakeAux_cons_cons (now : Timeval) (i : Nat) (w : Timeval) (j : Nat) (wj : Timeval)
    (tail : List (Nat × Timeval)) (ts : List (Nat × Thread)) (rq : List Nat) :
    wakeAux now ((i, w) :: (j, wj) :: tail) ts rq =
      if sourceSleepDelta wj now ≤ 0 then
        wakeAux now ((j, wj) :: tail) (wakeOne ts rq i).1 (wakeOne ts rq i).2
      else ((j, wj) :: tail, (wakeOne ts rq i).1, (wakeOne ts rq i).2,
            some (sourceSleepDelta wj now)) := rfl

theorem wakeOne_getThreadQuants (ts : List (Nat × Thread)) (rq : List Nat) (k tid : Nat) :
    getThreadQuants (wakeOne ts rq k).1 tid = getThreadQuants ts tid := by
  have hq : ∀ u : Thread, ({ u with isSleeping := false } : Thread).quants = u.quants :=
    fun u => rfl
  unfold wakeOne
  cases hl : lookupThread ts k with
  | none => rfl
  | some t =>
      by_cases hb : t.isBlocked <;>
        simp [hb, getThreadQuants_updateThread _ _ _ _ hq]

theorem wakeAux_getThreadQuants (now : Timeval) (queue : List (Nat × Timeval))
    (ts : List (Nat × Thread)) (rq : List Nat) (tid : Nat) :
    getThreadQuants (wakeAux now queue ts rq).2.1 tid = getThreadQuants ts tid := by
  induction queue generalizing ts rq with
  | nil => rfl
  | cons p rest ih =>
      obtain ⟨i, w⟩ := p
      cases rest with
      | nil =>
          rw [wakeAux_singleton]
          simp [wakeOne_getThreadQuants]
      | cons q tail =>
          obtain ⟨j, wj⟩ := q
          rw [wakeAux_cons_cons]
          by_cases hd : sourceSleepDelta wj now ≤ 0
          · rw [if_pos hd, ih, wakeOne_getThreadQuants]
          · rw [if_neg hd]
            simp [wakeOne_getThreadQuants]

/-! ### The global quantum counter across each operation -/

theorem spawn_totalQuants (s : LibState) :
    (uthread_spawn s).2.1.totalQuants = s.totalQuants := by
  cases h : freshTid s.threads <;> simp [uthread_spawn, h]

theorem resume_totalQuants (s : LibState) (tid : Nat) :
    (uthread_resume s tid).2.1.totalQuants = s.totalQuants := by
  cases h : lookupThread s.threads tid with
  | none => simp [uthread_resume, h]
  | some t =>
      by_cases ha : isThreadAsleep
          (updateThread (fun t => { t with isBlocked := false }) s.threads tid) tid <;>
        simp [uthread_resume, h, ha]

theorem block_effect (s : LibState) (tid : Nat) :
    ((uthread_block s tid).2.1.running = s.running ∧
      (uthread_block s tid).2.1.totalQuants = s.totalQuants) ∨
    ((uthread_block s tid).2.1.running ≠ s.running ∧
      (uthread_block s tid).2.1.totalQuants = s.totalQuants + 1) := by
  by_cases h0 : tid = 0
  · left
    simp [uthread_block, h0]
  · cases hl : lookupThread s.threads tid with
    | none =>
        left
        simp [uthread_block, h0, hl]
    | some t =>
        by_cases hn : (s.readyQueue.erase tid).head?.getD 0 = s.running
        · left
          simp [uthread_block, h0, hl, hn]
        · right
          simp [uthread_block, h0, hl, hn, switchContext]

theorem terminate_ret_effect (s : LibState) (tid : Nat) (v : Int) (s' : LibState)
    (m : Option String) (h : uthread_terminate s tid = TermResult.ret v s' m) :
    (s'.running = s.running ∧ s'.totalQuants = s.totalQuants) ∨
    (s'.running ≠ s.running ∧ s'.totalQuants = s.totalQuants + 1) := by
  by_cases h0 : tid = 0
  · simp [uthread_terminate, h0] at h
  · cases hl : lookupThread s.threads tid with
    | none =>
        simp [uthread_terminate, h0, hl] at h
        left
        rw [← h.2.1]
        exact ⟨rfl, rfl⟩
    | some t =>
        by_cases hn : (s.readyQueue.erase tid).head?.getD 0 = s.running
        · simp [uthread_terminate, h0, hl, hn] at h
          left
          rw [← h.2.1]
          exact ⟨rfl, rfl⟩
        · simp [uthread_terminate, h0, hl, hn, switchContext] at h
          right
          rw [← h.2.1]
          exact ⟨hn, rfl⟩

theorem sleep_totalQuants (s : LibState) (usec : Nat) (now : Timeval)
    (h : s.running ≠ 0) :
    (uthread_sleep s usec now).2.1.totalQuants = s.totalQuants + 1 := by
  simp [uthread_sleep, h, switchContext]

theorem sleep_main_noop (s : LibState) (usec : Nat) (now : Timeval) (h : s.running = 0) :
    uthread_sleep s usec now =
      (-1, s, some (libErrorSyntax ++ "The main thread cannot sleep.")) := by
  simp [uthread_sleep, h]

theorem getQuants_state (s : LibState) (tid : Nat) :
    (uthread_get_quantums s tid).2.1 = s := by
  cases h : lookupThread s.threads tid <;> simp [uthread_get_quantums, h]

theorem libStep_totalQuants_le (s s' : LibState) (h : LibStep s s') :
    s.totalQuants ≤ s'.totalQuants := by
  cases h with
  | quantum => exact Nat.le_succ _
  | wake now => exact Nat.le_refl _
  | spawn => rw [spawn_totalQuants]
  | block tid =>
      rcases block_effect s tid with ⟨_, h2⟩ | ⟨_, h2⟩ <;> omega
  | resume tid => rw [resume_totalQuants]
  | sleep usec now =>
      by_cases hr : s.running = 0
      · rw [sleep_main_noop s usec now hr]
      · rw [sleep_totalQuants s usec now hr]
        omega
  | terminate tid v s2 m heq =>
      rcases terminate_ret_effect s tid v s' m heq with ⟨_, h2⟩ | ⟨_, h2⟩ <;> omega
  | getTid => exact Nat.le_refl _
  | getTotal => exact Nat.le_refl _
  | getQuants tid => rw [getQuants_state]

/-- A state used to instantiate theorems whose hypotheses need a worker
thread to be running: main plus one worker, the worker running at the head
of the ready queue. -/
def exRunState : LibState :=
  { threads := [(0, { quants := 1, isBlocked := false, isSleeping := false }),
                (1, { quants := 1, isBlocked := false, isSleeping := false })],
    readyQueue := [1, 0],
    sleepQueue := [],
    running := 1,
    totalQuants := 2,
    rTimerArm := none }

/-- C1: the global quantum counter equals exactly 1 immediately after a
successful uthread_init; it never decreases across any library transition;
it increases by exactly 1 at every quantum expiry, at every block or
terminate call that changes the running thread, and at every self-sleep;
and it is unchanged by the wake handler, by spawn, by resume, by the three
observers, and by block or terminate calls that do not change the running
thread. -/
theorem C1_total_quantum_counter :
    (∀ q : Int, 0 < q → uthread_init q = (0, some initState, none)) ∧
    initState.totalQuants = 1 ∧
    (∀ s s' : LibState, LibStep s s' → s.totalQuants ≤ s'.totalQuants) ∧
    (∀ s : LibState, (handleQuantumTimeout s).totalQuants = s.totalQuants + 1) ∧
    (∀ (s : LibState) (now : Timeval),
        (handleSleepTimeout s now).totalQuants = s.totalQuants) ∧
    (∀ s : LibState, (uthread_spawn s).2.1.totalQuants = s.totalQuants) ∧
    (∀ (s : LibState) (tid : Nat),
        (uthread_resume s tid).2.1.totalQuants = s.totalQuants) ∧
    (∀ (s : LibState) (tid : Nat),
        ((uthread_block s tid).2.1.running = s.running ∧
          (uthread_block s tid).2.1.totalQuants = s.totalQuants) ∨
        ((uthread_block s tid).2.1.running ≠ s.running ∧
          (uthread_block s tid).2.1.totalQuants = s.totalQuants + 1)) ∧
    (∀ (s : LibState) (tid : Nat) (v : Int) (s' : LibState) (m : Option String),
        uthread_terminate s tid = TermResult.ret v s' m →
        (s'.running = s.running ∧ s'.totalQuants = s.totalQuants) ∨
        (s'.running ≠ s.running ∧ s'.totalQuants = s.totalQuants + 1)) ∧
    (∀ (s : LibState) (usec : Nat) (now : Timeval), s.running ≠ 0 →
        (uthread_sleep s usec now).2.1.totalQuants = s.totalQuants + 1) ∧
    (∀ (s : LibState) (usec : Nat) (now : Timeval), s.running = 0 →
        (uthread_sleep s usec now).2.1 = s) ∧
    (∀ s : LibState, (uthread_get_tid s).2.totalQuants = s.totalQuants) ∧
    (∀ s : LibState, (uthread_get_total_quantums s).2.totalQuants = s.totalQuants) ∧
    (∀ (s : LibState) (tid : Nat),
        (uthread_get_quantums s tid).2.1.totalQuants = s.totalQuants) := by
  refine ⟨?_, rfl, libStep_totalQuants_le, fun s => rfl, fun s now => rfl,
      spawn_totalQuants, resume_totalQuants, block_effect, terminate_ret_effect,
      sleep_totalQuants, ?_, fun s => rfl, fun s => rfl, ?_⟩
  · intro q hq
    simp [uthread_init, hq]
  · intro s usec now hr
    rw [sleep_main_noop s usec now hr]
  · intro s tid
    rw [getQuants_state]

/-- Witness for C1 at concrete inputs: a successful init yields counter 1,
a quantum expiry from the initial state does not decrease the counter and
adds exactly 1, and a self-sleep of the running worker adds exactly 1. -/
theorem C1_total_quantum_counter_witness :
    uthread_init 100 = (0, some initState, none) ∧
    initState.totalQuants ≤ (handleQuantumTimeout initState).totalQuants ∧
    (handleQuantumTimeout initState).totalQuants = initState.totalQuants + 1 ∧
    (uthread_sleep exRunState 1000 { sec := 0, usec := 0 }).2.1.totalQuants =
      exRunState.totalQuants + 1 :=
  ⟨C1_total_quantum_counter.1 100 (by decide),
   C1_total_quantum_counter.2.2.1 initState _ (LibStep.quantum initState),
   C1_total_quantum_counter.2.2.2.1 initState,
   C1_total_quantum_counter.2.2.2.2.2.2.2.2.2.1 exRunState 1000
     { sec := 0, usec := 0 } (by decide)⟩

/-! ### The wake handler performs no context switch -/

theorem lookup_updateThread_isSome (f : Thread → Thread) (ts : List (Nat × Thread))
    (k tid : Nat) :
    (lookupThread (updateThread f ts k) tid).isSome = (lookupThread ts tid).isSome := by
  by_cases hk : k = tid
  · subst hk
    rw [lookupThread_updateThread_self]
    cases lookupThread ts k <;> rfl
  · rw [lookupThread_updateThread_ne _ _ _ _ hk]

theorem wakeOne_lookup_isSome (ts : List (Nat × Thread)) (rq : List Nat) (k tid : Nat) :
    (lookupThread (wakeOne ts rq k).1 tid).isSome = (lookupThread ts tid).isSome := by
  unfold wakeOne
  cases hl : lookupThread ts k with
  | none => rfl
  | some t =>
      by_cases hb : t.isBlocked <;> simp [hb, lookup_updateThread_isSome]

theorem wakeAux_lookup_isSome (now : Timeval) (queue : List (Nat × Timeval))
    (ts : List (Nat × Thread)) (rq : List Nat) (tid : Nat) :
    (lookupThread (wakeAux now queue ts rq).2.1 tid).isSome
      = (lookupThread ts tid).isSome := by
  induction queue generalizing ts rq with
  | nil => rfl
  | cons p rest ih =>
      obtain ⟨i, w⟩ := p
      cases rest with
      | nil =>
          rw [wakeAux_singleton]
          simp [wakeOne_lookup_isSome]
      | cons q tail =>
          obtain ⟨j, wj⟩ := q
          rw [wakeAux_cons_cons]
          by_cases hd : sourceSleepDelta wj now ≤ 0
          · rw [if_pos hd, ih, wakeOne_lookup_isSome]
          · rw [if_neg hd]
            simp [wakeOne_lookup_isSome]

/-- C7: the wake handler never performs a context switch and never changes
the running thread: for every state and every firing instant it leaves the
running id, the global quantum counter, every per-thread quantum count and
the set of registered threads unchanged - it only mutates sleeping flags,
the sleep queue, the ready queue and the real timer. -/
theorem C7_wake_handler_no_switch :
    ∀ (s : LibState) (now : Timeval),
      (handleSleepTimeout s now).running = s.running ∧
      (handleSleepTimeout s now).totalQuants = s.totalQuants ∧
      (∀ tid : Nat, getThreadQuants (handleSleepTimeout s now).threads tid
          = getThreadQuants s.threads tid) ∧
      (∀ tid : Nat, (lookupThread (handleSleepTimeout s now).threads tid).isSome
          = (lookupThread s.threads tid).isSome) := by
  intro s now
  exact ⟨rfl, rfl,
    fun tid => wakeAux_getThreadQuants now s.sleepQueue s.threads s.readyQueue tid,
    fun tid => wakeAux_lookup_isSome now s.sleepQueue s.threads s.readyQueue tid⟩

/-! ### Purity of the observers -/

/-- C10: the observers uthread_get_tid, uthread_get_total_quantums and
uthread_get_quantums return the library state unchanged, and a second
back-to-back call returns the same value as the first. -/
theorem C10_observers_pure :
    ∀ (s : LibState) (tid : Nat),
      (uthread_get_tid s).2 = s ∧
      (uthread_get_total_quantums s).2 = s ∧
      (uthread_get_quantums s tid).2.1 = s ∧
      (uthread_get_tid ((uthread_get_tid s).2)).1 = (uthread_get_tid s).1 ∧
      (uthread_get_total_quantums ((uthread_get_total_quantums s).2)).1
        = (uthread_get_total_quantums s).1 ∧
      (uthread_get_quantums ((uthread_get_quantums s tid).2.1) tid).1
        = (uthread_get_quantums s tid).1 := by
  intro s tid
  refine ⟨rfl, rfl, getQuants_state s tid, rfl, rfl, ?_⟩
  rw [getQuants_state]

/-! ### The units of the wake-up delay -/

theorem sourceSleepDelta_thousandfold (wake now : Timeval) :
    sourceSleepDelta wake now = 1000 * specMicrosecondDelta wake now := by
  unfold sourceSleepDelta specMicrosecondDelta CONVERT_CONST_SEC_TO_NSEC
    CONVERT_CONST_MSEC_TO_NSEC
  ring

/-- A state in which thread 1 is due to wake now and thread 2 is due to wake
one second later: the wake handler pops thread 1 and re-arms the real timer
for thread 2. -/
def exSleepState : LibState :=
  { threads := [(0, { quants := 2, isBlocked := false, isSleeping := false }),
                (1, { quants := 1, isBlocked := false, isSleeping := true }),
                (2, { quants := 1, isBlocked := false, isSleeping := true })],
    readyQueue := [0],
    sleepQueue := [(1, { sec := 0, usec := 0 }), (2, { sec := 1, usec := 0 })],
    running := 0,
    totalQuants := 4,
    rTimerArm := none }

/-- C2 (code bug): the wake handler computes the delay until the next head
as (wake_at - now) in NANOseconds - seconds difference times 10^9 plus
microseconds difference times 10^3 - and arms the real timer with that
value, one thousand times the microsecond delay the claim states (and one
thousand times the unit uthread_sleep itself passes to the same timer).
At a head waking one second from now the timer is armed with 10^9, not
with the 10^6 microseconds. -/
theorem C2_wake_delay_units :
    (handleSleepTimeout exSleepState { sec := 0, usec := 0 }).rTimerArm
        = some 1000000000 ∧
    specMicrosecondDelta { sec := 1, usec := 0 } { sec := 0, usec := 0 } = 1000000 ∧
    (1000000000 : Int) ≠ 1000000 ∧
    (∀ wake now : Timeval,
        sourceSleepDelta wake now = 1000 * specMicrosecondDelta wake now) := by
  refine ⟨by decide, by decide, by decide, sourceSleepDelta_thousandfold⟩

/-! ### Per-thread quantum counts as observed by get_quantums -/

/-- C5 counterexample: immediately after init plus one spawn, thread 1
exists but has never run, and uthread_get_quantums returns its quantum
count 0 - not a value greater than or equal to 1 as the claim states. -/
theorem C5_get_quantums_counterexample :
    lookupThread (uthread_spawn initState).2.1.threads 1 ≠ none ∧
    (uthread_get_quantums (uthread_spawn initState).2.1 1).1 = 0 ∧
    ¬ (1 ≤ (uthread_get_quantums (uthread_spawn initState).2.1 1).1) := by
  decide

/-- C5 amended: uthread_get_quantums returns -1 exactly when no thread with
the given id exists, and for an existing thread it returns the quantum
count of that thread - a value that is at least 0, and at least 1 as soon
as the thread has run at least once. -/
theorem C5_get_quantums_amended :
    ∀ (s : LibState) (tid : Nat),
      ((uthread_get_quantums s tid).1 = -1 ↔ lookupThread s.threads tid = none) ∧
      (∀ t : Thread, lookupThread s.threads tid = some t →
          (uthread_get_quantums s tid).1 = Int.ofNat t.quants ∧
          0 ≤ (uthread_get_quantums s tid).1 ∧
          (1 ≤ t.quants → 1 ≤ (uthread_get_quantums s tid).1)) := by
  intro s tid
  cases h : lookupThread s.threads tid with
  | none => simp [uthread_get_quantums, h]
  | some t =>
      have hv : (uthread_get_quantums s tid).1 = Int.ofNat t.quants := by
        simp [uthread_get_quantums, h]
      constructor
      · rw [hv]
        constructor
        · intro hc
          rw [Int.ofNat_eq_natCast] at hc
          exact absurd hc (by omega)
        · intro hc
          exact Option.noConfusion hc
      · intro u hu
        injection hu with huv
        subst huv
        refine ⟨hv, ?_, ?_⟩
        · rw [hv, Int.ofNat_eq_natCast]
          omega
        · intro h1
          rw [hv, Int.ofNat_eq_natCast]
          omega

/-- Witness for C5 amended at a concrete state: in exRunState thread 1
exists with quantum count 1, so get_quantums returns 1, and get_quantums
of the unregistered id 7 returns -1. -/
theorem C5_get_quantums_amended_witness :
    ((uthread_get_quantums exRunState 7).1 = -1 ↔
        lookupThread exRunState.threads 7 = none) ∧
    (uthread_get_quantums exRunState 1).1
        = Int.ofNat ({ quants := 1, isBlocked := false, isSleeping := false } : Thread).quants ∧
    0 ≤ (uthread_get_quantums exRunState 1).1 ∧
    (1 ≤ ({ quants := 1, isBlocked := false, isSleeping := false } : Thread).quants →
      1 ≤ (uthread_get_quantums exRunState 1).1) :=
  ⟨(C5_get_quantums_amended exRunState 7).1,
   (C5_get_quantums_amended exRunState 1).2
     { quants := 1, isBlocked := false, isSleeping := false } (by decide)⟩

/-! ### Idempotence of block and resume -/

theorem thread_set_blocked_false_fix (t : Thread) (h : t.isBlocked = false) :
    ({ t with isBlocked := false } : Thread) = t := by
  cases t
  simp_all

theorem thread_set_blocked_true_fix (t : Thread) (h : t.isBlocked = true) :
    ({ t with isBlocked := true } : Thread) = t := by
  cases t
  simp_all

theorem mem_addThread_self (q : List Nat) (tid : Nat) : tid ∈ addThread q tid := by
  by_cases h : tid ∈ q <;> simp [addThread, h]

theorem addThread_nodup (q : List Nat) (tid : Nat) (h : q.Nodup) :
    (addThread q tid).Nodup := by
  by_cases hm : tid ∈ q
  · simpa [addThread, hm] using h
  · rw [addThread, if_neg hm]
    refine List.Nodup.append h (List.nodup_singleton tid) ?_
    intro a ha hb
    rw [List.mem_singleton] at hb
    subst hb
    exact hm ha

theorem resume_queue_nodup (s : LibState) (tid : Nat) (h : s.readyQueue.Nodup) :
    (uthread_resume s tid).2.1.readyQueue.Nodup := by
  cases hl : lookupThread s.threads tid with
  | none => simpa [uthread_resume, hl] using h
  | some t =>
      by_cases ha : isThreadAsleep
          (updateThread (fun t => { t with isBlocked := false }) s.threads tid) tid
      · simpa [uthread_resume, hl, ha] using h
      · simpa [uthread_resume, hl, ha] using addThread_nodup _ _ h

theorem block_queue_nodup (s : LibState) (tid : Nat) (h : s.readyQueue.Nodup) :
    (uthread_block s tid).2.1.readyQueue.Nodup := by
  by_cases h0 : tid = 0
  · simpa [uthread_block, h0] using h
  · cases hl : lookupThread s.threads tid with
    | none => simpa [uthread_block, h0, hl] using h
    | some t =>
        have he : (s.readyQueue.erase tid).Nodup := h.sublist (s.readyQueue.erase_sublist tid)
        by_cases hn : (s.readyQueue.erase tid).head?.getD 0 = s.running
        · simpa [uthread_block, h0, hl, hn] using he
        · simpa [uthread_block, h0, hl, hn, switchContext] using he

/-- C4: resume of an existing thread that is neither blocked nor sleeping
and already sits in the ready queue is a no-op returning 0; block of an
existing blocked thread (which by the library invariant is outside the
ready queue, while the queue head is the running thread) is a no-op
returning 0; and block and resume always keep the ready queue free of
duplicates. -/
theorem C4_idempotence :
    (∀ (s : LibState) (tid : Nat) (t : Thread),
        lookupThread s.threads tid = some t → t.isBlocked = false →
        t.isSleeping = false → tid ∈ s.readyQueue →
        uthread_resume s tid = (0, s, none)) ∧
    (∀ (s : LibState) (tid : Nat) (t : Thread),
        lookupThread s.threads tid = some t → t.isBlocked = true → tid ≠ 0 →
        tid ∉ s.readyQueue → s.readyQueue.headD 0 = s.running →
        uthread_block s tid = (0, s, none)) ∧
    (∀ (s : LibState) (tid : Nat), s.readyQueue.Nodup →
        (uthread_resume s tid).2.1.readyQueue.Nodup ∧
        (uthread_block s tid).2.1.readyQueue.Nodup) := by
  refine ⟨?_, ?_, fun s tid h => ⟨resume_queue_nodup s tid h, block_queue_nodup s tid h⟩⟩
  · intro s tid t hl hb hs hm
    have hfix : updateThread (fun t => { t with isBlocked := false }) s.threads tid
        = s.threads :=
      updateThread_eq_of_fix _ _ _ t hl (thread_set_blocked_false_fix t hb)
    have ha : isThreadAsleep s.threads tid = false := by
      simp [isThreadAsleep, hl, hs]
    simp [uthread_resume, hl, hfix, ha, addThread, hm]
  · intro s tid t hl hb h0 hm hh
    have hfix : updateThread (fun t => { t with isBlocked := true }) s.threads tid
        = s.threads :=
      updateThread_eq_of_fix _ _ _ t hl (thread_set_blocked_true_fix t hb)
    have he : s.readyQueue.erase tid = s.readyQueue := List.erase_of_not_mem hm
    simp only [List.headD_eq_head?_getD] at hh
    simp [uthread_block, h0, hl, hfix, he, hh]

/-- A state exercising both halves of C4: thread 1 is ready (neither
blocked nor sleeping, in the queue), thread 2 is blocked (outside the
queue), main is running at the head. -/
def exIdemState : LibState :=
  { threads := [(0, { quants := 2, isBlocked := false, isSleeping := false }),
                (1, { quants := 1, isBlocked := false, isSleeping := false }),
                (2, { quants := 1, isBlocked := true, isSleeping := false })],
    readyQueue := [0, 1],
    sleepQueue := [],
    running := 0,
    totalQuants := 4,
    rTimerArm := none }

/-- Witness for C4 at a concrete state: resuming the ready thread 1 and
blocking the blocked thread 2 both return 0 and leave the state unchanged,
and the ready queue stays duplicate-free. -/
theorem C4_idempotence_witness :
    uthread_resume exIdemState 1 = (0, exIdemState, none) ∧
    uthread_block exIdemState 2 = (0, exIdemState, none) ∧
    ((uthread_resume exIdemState 1).2.1.readyQueue.Nodup ∧
      (uthread_block exIdemState 2).2.1.readyQueue.Nodup) :=
  ⟨C4_idempotence.1 exIdemState 1 { quants := 1, isBlocked := false, isSleeping := false }
      (by decide) (by decide) (by decide) (by decide),
   C4_idempotence.2.1 exIdemState 2 { quants := 1, isBlocked := true, isSleeping := false }
      (by decide) (by decide) (by decide) (by decide) (by decide),
   C4_idempotence.2.2 exIdemState 1 (by decide) |>.1,
   C4_idempotence.2.2 exIdemState 2 (by decide) |>.2⟩

/-! ### Blocked-and-sleeping threads -/

theorem wakeOne_of_none (ts : List (Nat × Thread)) (rq : List Nat) (k : Nat)
    (h : lookupThread ts k = none) : wakeOne ts rq k = (ts, rq) := by
  unfold wakeOne
  rw [h]

theorem wakeOne_of_some (ts : List (Nat × Thread)) (rq : List Nat) (k : Nat) (t : Thread)
    (h : lookupThread ts k = some t) :
    wakeOne ts rq k
      = (updateThread (fun u => { u with isSleeping := false }) ts k,
         if t.isBlocked then rq else addThread rq k) := by
  unfold wakeOne
  rw [h]
  by_cases hb : t.isBlocked <;> simp [hb]

/-- C6: a thread that is both blocked and sleeping stays out of the ready
queue until both flags clear.  Resume of a still-sleeping blocked thread
returns 0, clears only the blocked flag and does not touch the ready
queue; the wake handler (here on a single-entry sleep queue) clears the
sleeping flag, and reinstates the thread into the ready queue exactly when
it is not blocked. -/
theorem C6_blocked_and_sleeping :
    (∀ (s : LibState) (tid : Nat) (t : Thread),
        lookupThread s.threads tid = some t → t.isBlocked = true →
        t.isSleeping = true →
        (uthread_resume s tid).1 = 0 ∧
        (uthread_resume s tid).2.1.readyQueue = s.readyQueue ∧
        lookupThread (uthread_resume s tid).2.1.threads tid
          = some { t with isBlocked := false }) ∧
    (∀ (s : LibState) (tid : Nat) (w : Timeval) (t : Thread) (now : Timeval),
        s.sleepQueue = [(tid, w)] → lookupThread s.threads tid = some t →
        lookupThread (handleSleepTimeout s now).threads tid
          = some { t with isSleeping := false } ∧
        (handleSleepTimeout s now).sleepQueue = [] ∧
        (t.isBlocked = true → (handleSleepTimeout s now).readyQueue = s.readyQueue) ∧
        (t.isBlocked = false → tid ∈ (handleSleepTimeout s now).readyQueue)) := by
  constructor
  · intro s tid t hl hb hs
    have hup : lookupThread
        (updateThread (fun t => { t with isBlocked := false }) s.threads tid) tid
        = some { t with isBlocked := false } := by
      rw [lookupThread_updateThread_self, hl]
      rfl
    have ha : isThreadAsleep
        (updateThread (fun t => { t with isBlocked := false }) s.threads tid) tid = true := by
      simp [isThreadAsleep, hup, hs]
    refine ⟨?_, ?_, ?_⟩ <;> simp [uthread_resume, hl, ha, hup]
  · intro s tid w t now hq hl
    have hw := wakeOne_of_some s.threads s.readyQueue tid t hl
    have hr : handleSleepTimeout s now =
        { s with sleepQueue := [],
                 threads := updateThread (fun u => { u with isSleeping := false }) s.threads tid,
                 readyQueue := if t.isBlocked then s.readyQueue
                               else addThread s.readyQueue tid } := by
      unfold handleSleepTimeout
      rw [hq, wakeAux_singleton, hw]
    rw [hr]
    refine ⟨?_, rfl, ?_, ?_⟩
    · rw [lookupThread_updateThread_self, hl]
      rfl
    · intro hb
      simp [hb]
    · intro hb
      simp [hb, mem_addThread_self]

/-- A state with thread 1 simultaneously blocked and sleeping, alone in the
sleep queue. -/
def exBothState : LibState :=
  { threads := [(0, { quants := 2, isBlocked := false, isSleeping := false }),
                (1, { quants := 1, isBlocked := true, isSleeping := true })],
    readyQueue := [0],
    sleepQueue := [(1, { sec := 3, usec := 0 })],
    running := 0,
    totalQuants := 4,
    rTimerArm := none }

/-- Witness for C6 at a concrete state: resuming the blocked-and-sleeping
thread 1 clears only its blocked flag and leaves the ready queue alone, and
the wake handler clears its sleeping flag without readying it while it is
still blocked. -/
theorem C6_blocked_and_sleeping_witness :
    ((uthread_resume exBothState 1).1 = 0 ∧
      (uthread_resume exBothState 1).2.1.readyQueue = exBothState.readyQueue ∧
      lookupThread (uthread_resume exBothState 1).2.1.threads 1
        = some { quants := 1, isBlocked := false, isSleeping := true }) ∧
    (lookupThread (handleSleepTimeout exBothState { sec := 3, usec := 0 }).threads 1
        = some { quants := 1, isBlocked := true, isSleeping := false } ∧
      (handleSleepTimeout exBothState { sec := 3, usec := 0 }).sleepQueue = [] ∧
      (handleSleepTimeout exBothState { sec := 3, usec := 0 }).readyQueue
        = exBothState.readyQueue) := by
  have h1 := C6_blocked_and_sleeping.1 exBothState 1
    { quants := 1, isBlocked := true, isSleeping := true } (by decide) (by decide) (by decide)
  have h2 := C6_blocked_and_sleeping.2 exBothState 1 { sec := 3, usec := 0 }
    { quants := 1, isBlocked := true, isSleeping := true } { sec := 3, usec := 0 }
    (by decide) (by decide)
  exact ⟨⟨h1.1, h1.2.1, h1.2.2⟩, ⟨h2.1, h2.2.1, h2.2.2.1 (by decide)⟩⟩

/-! ### Terminating a sleeping thread -/

/-- C3: terminating a sleeping thread (not in the ready queue, with its
single sleep-queue entry still pending) returns 0 and removes it from the
registry while its stale sleep entry stays queued; when the wake timer
later fires, the handler drops the stale entry without any effect on the
ready queue, the registry or the running thread - no error path exists in
the handler for an absent thread. -/
theorem C3_terminate_sleeping :
    ∀ (s : LibState) (tid : Nat) (w : Timeval) (t : Thread) (now : Timeval),
      tid ≠ 0 → lookupThread s.threads tid = some t →
      s.sleepQueue = [(tid, w)] → tid ∉ s.readyQueue →
      s.readyQueue.headD 0 = s.running →
      uthread_terminate s tid
        = TermResult.ret 0 { s with threads := removeThread s.threads tid } none ∧
      lookupThread (removeThread s.threads tid) tid = none ∧
      { s with threads := removeThread s.threads tid }.sleepQueue = [(tid, w)] ∧
      handleSleepTimeout { s with threads := removeThread s.threads tid } now
        = { s with threads := removeThread s.threads tid, sleepQueue := [] } ∧
      tid ∉ (handleSleepTimeout { s with threads := removeThread s.threads tid } now).readyQueue ∧
      lookupThread
        (handleSleepTimeout { s with threads := removeThread s.threads tid } now).threads tid
        = none ∧
      (handleSleepTimeout { s with threads := removeThread s.threads tid } now).running
        = s.running := by
  intro s tid w t now h0 hl hq hm hh
  have hrm : lookupThread (removeThread s.threads tid) tid = none :=
    lookupThread_removeThread_self s.threads tid
  have he : s.readyQueue.erase tid = s.readyQueue := List.erase_of_not_mem hm
  simp only [List.headD_eq_head?_getD] at hh
  have hterm : uthread_terminate s tid
      = TermResult.ret 0 { s with threads := removeThread s.threads tid } none := by
    simp [uthread_terminate, h0, hl, he, hh]
  have hhandler : handleSleepTimeout { s with threads := removeThread s.threads tid } now
      = { s with threads := removeThread s.threads tid, sleepQueue := [] } := by
    unfold handleSleepTimeout
    have hq2 : ({ s with threads := removeThread s.threads tid } : LibState).sleepQueue
        = [(tid, w)] := hq
    rw [hq2, wakeAux_singleton, wakeOne_of_none _ _ _ hrm]
  refine ⟨hterm, hrm, hq, hhandler, ?_, ?_, ?_⟩
  · rw [hhandler]
    exact hm
  · rw [hhandler]
    exact hrm
  · rw [hhandler]

/-- A state with thread 1 sleeping (due at 2 s) and absent from the ready
queue, main running. -/
def exSleeperState : LibState :=
  { threads := [(0, { quants := 3, isBlocked := false, isSleeping := false }),
                (1, { quants := 1, isBlocked := false, isSleeping := true })],
    readyQueue := [0],
    sleepQueue := [(1, { sec := 2, usec := 0 })],
    running := 0,
    totalQuants := 4,
    rTimerArm := none }

/-- Witness for C3 at a concrete state: main terminates the sleeping thread
1, the call returns 0, and the later wake-timer expiry drops the stale
entry leaving thread 1 in no queue and the running thread untouched. -/
theorem C3_terminate_sleeping_witness :
    uthread_terminate exSleeperState 1
      = TermResult.ret 0
          { exSleeperState with threads := removeThread exSleeperState.threads 1 } none ∧
    lookupThread (removeThread exSleeperState.threads 1) 1 = none ∧
    handleSleepTimeout { exSleeperState with threads := removeThread exSleeperState.threads 1 }
        { sec := 2, usec := 0 }
      = { exSleeperState with threads := removeThread exSleeperState.threads 1,
                              sleepQueue := [] } ∧
    (1 ∉ (handleSleepTimeout
        { exSleeperState with threads := removeThread exSleeperState.threads 1 }
        { sec := 2, usec := 0 }).readyQueue) := by
  have h := C3_terminate_sleeping exSleeperState 1 { sec := 2, usec := 0 }
    { quants := 1, isBlocked := false, isSleeping := true } { sec := 2, usec := 0 }
    (by decide) (by decide) (by decide) (by decide) (by decide)
  exact ⟨h.1, h.2.1, h.2.2.2.1, h.2.2.2.2.1⟩

/-! ### Error paths -/

/-- C8: every validation, not-found and capacity failure returns -1, emits a
message carrying the library error prefix, and leaves the whole library
state (registry, ready queue, sleep queue, running id, quantum counters,
timer arm) unchanged: non-positive quantum at init creates no state; block
of thread 0; sleep from thread 0; unknown id in terminate, block, resume
and get_quantums; spawn at capacity. -/
theorem C8_error_paths :
    (∀ q : Int, q ≤ 0 →
        uthread_init q
          = (-1, none, some (libErrorSyntax ++ "quantum_usec should be non-negative."))) ∧
    (∀ s : LibState,
        uthread_block s 0
          = (-1, s, some (libErrorSyntax ++ "Blocking the main thread is forbidden."))) ∧
    (∀ (s : LibState) (usec : Nat) (now : Timeval), s.running = 0 →
        uthread_sleep s usec now
          = (-1, s, some (libErrorSyntax ++ "The main thread cannot sleep."))) ∧
    (∀ (s : LibState) (tid : Nat), tid ≠ 0 → lookupThread s.threads tid = none →
        uthread_terminate s tid
          = TermResult.ret (-1) s (some (libErrorSyntax ++ "Thread does not exist."))) ∧
    (∀ (s : LibState) (tid : Nat), tid ≠ 0 → lookupThread s.threads tid = none →
        uthread_block s tid
          = (-1, s, some (libErrorSyntax ++ "Thread does not exist."))) ∧
    (∀ (s : LibState) (tid : Nat), lookupThread s.threads tid = none →
        uthread_resume s tid
          = (-1, s, some (libErrorSyntax ++ "Thread does not exist."))) ∧
    (∀ (s : LibState) (tid : Nat), lookupThread s.threads tid = none →
        uthread_get_quantums s tid
          = (-1, s, some (libErrorSyntax ++ "Thread does not exist."))) ∧
    (∀ s : LibState, freshTid s.threads = none →
        uthread_spawn s
          = (-1, s, some (libErrorSyntax ++ "Number of threads > MAX_THREAD_NUMBER."))) := by
  refine ⟨?_, ?_, sleep_main_noop, ?_, ?_, ?_, ?_, ?_⟩
  · intro q hq
    rw [uthread_init, if_neg (by omega)]
  · intro s
    simp [uthread_block]
  · intro s tid h0 hl
    simp [uthread_terminate, h0, hl]
  · intro s tid h0 hl
    simp [uthread_block, h0, hl]
  · intro s tid hl
    simp [uthread_resume, hl]
  · intro s tid hl
    simp [uthread_get_quantums, hl]
  · intro s hf
    simp [uthread_spawn, hf]

/-- The registry holding all MAX_THREAD_NUM threads: the next spawn fails
with the capacity error. -/
def exFullState : LibState :=
  { threads := (List.range MAX_THREAD_NUM).map
      (fun i => (i, { quants := 1, isBlocked := false, isSleeping := false })),
    readyQueue := List.range MAX_THREAD_NUM,
    sleepQueue := [],
    running := 0,
    totalQuants := 100,
    rTimerArm := none }

/-- Witness for C8 at concrete inputs: each failing call returns -1 with
the prefixed message and the untouched state. -/
theorem C8_error_paths_witness :
    uthread_init (-5)
      = (-1, none, some (libErrorSyntax ++ "quantum_usec should be non-negative.")) ∧
    uthread_block initState 0
      = (-1, initState, some (libErrorSyntax ++ "Blocking the main thread is forbidden.")) ∧
    uthread_sleep initState 1000 { sec := 0, usec := 0 }
      = (-1, initState, some (libErrorSyntax ++ "The main thread cannot sleep.")) ∧
    uthread_terminate initState 5
      = TermResult.ret (-1) initState (some (libErrorSyntax ++ "Thread does not exist.")) ∧
    uthread_block initState 5
      = (-1, initState, some (libErrorSyntax ++ "Thread does not exist.")) ∧
    uthread_resume initState 5
      = (-1, initState, some (libErrorSyntax ++ "Thread does not exist.")) ∧
    uthread_get_quantums initState 5
      = (-1, initState, some (libErrorSyntax ++ "Thread does not exist.")) ∧
    uthread_spawn exFullState
      = (-1, exFullState, some (libErrorSyntax ++ "Number of threads > MAX_THREAD_NUMBER.")) :=
  ⟨C8_error_paths.1 (-5) (by decide),
   C8_error_paths.2.1 initState,
   C8_error_paths.2.2.1 initState 1000 { sec := 0, usec := 0 } (by decide),
   C8_error_paths.2.2.2.1 initState 5 (by decide) (by decide),
   C8_error_paths.2.2.2.2.1 initState 5 (by decide) (by decide),
   C8_error_paths.2.2.2.2.2.1 initState 5 (by decide),
   C8_error_paths.2.2.2.2.2.2.1 initState 5 (by decide),
   C8_error_paths.2.2.2.2.2.2.2 exFullState (by decide)⟩

/-! ### Terminate semantics -/

/-- C9: uthread_terminate returns 0 after removing an existing non-main
thread from the registry and the ready queue, returns -1 when no thread
with the id exists, and for id 0 it exits the process with code 0 without
returning, whatever the rest of the state holds. -/
theorem C9_terminate_semantics :
    (∀ s : LibState, uthread_terminate s 0 = TermResult.exited 0) ∧
    (∀ (s : LibState) (tid : Nat), tid ≠ 0 → lookupThread s.threads tid = none →
        uthread_terminate s tid
          = TermResult.ret (-1) s (some (libErrorSyntax ++ "Thread does not exist."))) ∧
    (∀ (s : LibState) (tid : Nat) (t : Thread), tid ≠ 0 →
        lookupThread s.threads tid = some t → s.readyQueue.Nodup →
        ∃ s' : LibState, uthread_terminate s tid = TermResult.ret 0 s' none ∧
          lookupThread s'.threads tid = none ∧ tid ∉ s'.readyQueue) := by
  refine ⟨?_, ?_, ?_⟩
  · intro s
    simp [uthread_terminate]
  · intro s tid h0 hl
    simp [uthread_terminate, h0, hl]
  · intro s tid t h0 hl hnd
    have hq : tid ∉ s.readyQueue.erase tid := hnd.not_mem_erase
    by_cases hn : (s.readyQueue.erase tid).head?.getD 0 = s.running
    · refine ⟨{ s with threads := removeThread s.threads tid,
                       readyQueue := s.readyQueue.erase tid }, ?_, ?_, hq⟩
      · simp [uthread_terminate, h0, hl, hn]
      · exact lookupThread_removeThread_self s.threads tid
    · refine ⟨switchContext
          { s with threads := removeThread s.threads tid,
                   readyQueue := s.readyQueue.erase tid,
                   totalQuants := s.totalQuants + 1 }
          ((s.readyQueue.erase tid).head?.getD 0), ?_, ?_, hq⟩
      · simp [uthread_terminate, h0, hl, hn]
      · exact lookupThread_none_updateThread _ _ _ _
          (lookupThread_removeThread_self s.threads tid)

/-- Witness for C9 at concrete inputs: terminate(0) exits with code 0 from
the initial state, terminating the unknown id 5 fails with -1, and the
running worker 1 of exRunState is fully removed by its own termination. -/
theorem C9_terminate_semantics_witness :
    uthread_terminate initState 0 = TermResult.exited 0 ∧
    uthread_terminate initState 5
      = TermResult.ret (-1) initState (some (libErrorSyntax ++ "Thread does not exist.")) ∧
    ∃ s' : LibState, uthread_terminate exRunState 1 = TermResult.ret 0 s' none ∧
      lookupThread s'.threads 1 = none ∧ 1 ∉ s'.readyQueue :=
  ⟨C9_terminate_semantics.1 initState,
   C9_terminate_semantics.2.1 initState 5 (by decide) (by decide),
   C9_terminate_semantics.2.2 exRunState 1
     { quants := 1, isBlocked := false, isSleeping := false }
     (by decide) (by decide) (by decide)⟩

end UThreads
